import Mathlib

/-
Verification of the BCM role-reconciliation daemon
(src/automation/role-monitor/bcm_role_monitor.py) against its
natural-language specification.

The daemon's cycle logic is embedded shallowly: every effectful call
(HTTPS requests, systemctl invocations, filesystem writes) is replaced by
an explicit oracle input, and the cycle produces a trace of `Action`s that
an interpreter (`applyActs`) runs against a model filesystem.  Times are
naturals (seconds); `datetime` values live inside the `PyVal` model of
Python values so that JSON-serializability can be reasoned about.
-/

set_option maxHeartbeats 1000000

namespace BCM

/-- Per-service retry bookkeeping, mirroring the dict created in
`handle_service_retry` (bcm_role_monitor.py lines 351-357):
`{'attempts': 0, 'last_attempt': None, 'next_attempt': None, 'failed_permanently': False}`. -/
structure RetryState where
  attempts : Nat
  last_attempt : Option Nat
  next_attempt : Option Nat
  failed_permanently : Bool
deriving Repr, DecidableEq

/-- The zero value of `RetryState`, as (re)assigned at lines 352-357, 365, 375,
403 and 410 of the source. -/
def zeroRetry : RetryState :=
  { attempts := 0, last_attempt := none, next_attempt := none, failed_permanently := false }

/-- Result of `subprocess.run(['systemctl', 'is-active', service], ...)`:
`none` models an exception escaping `subprocess.run`, `some (rc, out)` models a
completed process with return code `rc` and captured stdout `out`. -/
def SubprocResult := Option (Int × String)

/-- ASCII whitespace removed by Python's `str.strip()`. -/
def isPySpace (c : Char) : Bool :=
  c == ' ' || c == '\t' || c == '\n' || c == '\r' || c == '\x0b' || c == '\x0c'

/-- Python `str.strip()`: drop whitespace from both ends. -/
def pyStrip (s : String) : String :=
  String.mk (((s.data.dropWhile isPySpace).reverse.dropWhile isPySpace).reverse)

/-- `get_service_status` (lines 200-213): true iff the subprocess completed,
returned code 0 and its stripped stdout equals "active"; every error path
returns false. -/
def statusOf : Option (Int × String) → Bool
  | none => false
  | some (rc, out) => rc == 0 && pyStrip out == "active"

/-- `start_service` (lines 215-240): the systemctl start command result
(`none` = exception) must have return code 0 AND the follow-up
`get_service_status` verification (after the 2s settle sleep) must report
active; otherwise the start counts as failed. -/
def startServiceOk (startRes : Option Int) (verifyRes : Option (Int × String)) : Bool :=
  match startRes with
  | none => false
  | some rc => rc == 0 && statusOf verifyRes

/-- `stop_service` (lines 242-261): succeeds iff the systemctl stop command
completed with return code 0. -/
def stopServiceOk : Option Int → Bool
  | none => false
  | some rc => rc == 0

/-- The guard at line 369: `if retry_info['next_attempt'] and now < retry_info['next_attempt']`.
`None` is falsy in Python, so a missing next-attempt time means the attempt is due. -/
def notYetDue (now : Nat) : Option Nat → Bool
  | none => false
  | some na => decide (now < na)

/-- `handle_service_retry` (lines 346-389), as a pure transition.
Inputs: the config's `max_retries` and `retry_interval`, the current time,
the result of the `get_service_status` probe made in the permanently-failed
branch (line 363), the outcome of `start_service` if invoked (line 373), and
the service's current entry in `self.retry_state` (`none` = key absent, in
which case lines 351-357 initialize it to zero).
Output: (new retry state, returned bool, whether `start_service` was invoked). -/
def handleServiceRetry (maxRetries retryInterval now : Nat)
    (statusNow startOk : Bool) (rs0 : Option RetryState) :
    RetryState × Bool × Bool :=
  let ri := rs0.getD zeroRetry
  if ri.failed_permanently then
    if statusNow then (zeroRetry, false, false) else (ri, false, false)
  else if notYetDue now ri.next_attempt then
    (ri, false, false)
  else if startOk then
    (zeroRetry, true, true)
  else if maxRetries ≤ ri.attempts + 1 then
    ({ attempts := ri.attempts + 1, last_attempt := some now,
       next_attempt := ri.next_attempt, failed_permanently := true }, false, true)
  else
    ({ attempts := ri.attempts + 1, last_attempt := some now,
       next_attempt := some (now + retryInterval), failed_permanently := false }, false, true)

/-- A run of `n` reconciliation cycles for one service whose start always
fails and which is never observed running (the scenario of the retry
monotonicity property): cycle `i` happens at time `t + i * gap`.  Returns the
final retry state and the number of `start_service` invocations. -/
def runRetryFail (maxRetries retryInterval gap : Nat) :
    Nat → Nat → RetryState → RetryState × Nat
  | 0, _, rs => (rs, 0)
  | n + 1, t, rs =>
    let s := handleServiceRetry maxRetries retryInterval t false false (some rs)
    let r := runRetryFail maxRetries retryInterval gap n (t + gap) s.1
    (r.1, (if s.2.2 then 1 else 0) + r.2)

/-- Once `failed_permanently` is set and the service is still not observed
running, `handle_service_retry` returns at line 366 without touching the
state and without invoking `start_service`. -/
lemma handleServiceRetry_failed (maxRetries retryInterval now : Nat) (rs : RetryState)
    (h : rs.failed_permanently = true) :
    handleServiceRetry maxRetries retryInterval now false false (some rs) = (rs, false, false) := by
  simp [handleServiceRetry, Option.getD, h]

/-- A permanently failed service absorbs the whole remaining run: no state
change and zero start invocations. -/
lemma runRetryFail_failed (maxRetries retryInterval gap : Nat) (rs : RetryState)
    (h : rs.failed_permanently = true) :
    ∀ n t, runRetryFail maxRetries retryInterval gap n t rs = (rs, 0) := by
  intro n
  induction n with
  | zero => intro t; simp [runRetryFail]
  | succ n ih =>
    intro t
    simp [runRetryFail, handleServiceRetry_failed maxRetries retryInterval t rs h, ih]

/-- One eligible failing step that leaves retry budget: attempts go up by one,
the next attempt is scheduled `retryInterval` later, and `start_service` was
invoked. -/
lemma handleServiceRetry_step_mid (maxRetries retryInterval now : Nat) (rs : RetryState)
    (hf : rs.failed_permanently = false) (hdue : notYetDue now rs.next_attempt = false)
    (hroom : rs.attempts + 2 ≤ maxRetries) :
    handleServiceRetry maxRetries retryInterval now false false (some rs) =
      ({ attempts := rs.attempts + 1, last_attempt := some now,
         next_attempt := some (now + retryInterval), failed_permanently := false },
       false, true) := by
  simp [handleServiceRetry, Option.getD, hf, hdue]
  omega

/-- One eligible failing step that exhausts the retry budget: attempts go up
by one and `failed_permanently` is set (line 382-384); `next_attempt` is left
at its previous value. -/
lemma handleServiceRetry_step_last (maxRetries retryInterval now : Nat) (rs : RetryState)
    (hf : rs.failed_permanently = false) (hdue : notYetDue now rs.next_attempt = false)
    (hlast : maxRetries ≤ rs.attempts + 1) :
    handleServiceRetry maxRetries retryInterval now false false (some rs) =
      ({ attempts := rs.attempts + 1, last_attempt := some now,
         next_attempt := rs.next_attempt, failed_permanently := true }, false, true) := by
  simp [handleServiceRetry, Option.getD, hf, hdue, hlast]

/-- Characterization of a failing run that starts in the mid-flight state
reached after `k` failed attempts (the last one at time `tl`), provided every
subsequent cycle arrives after the scheduled backoff. -/
lemma runRetryFail_mid (maxRetries retryInterval gap : Nat) (hgap : retryInterval ≤ gap) :
    ∀ n k tl t, k < maxRetries → tl + retryInterval ≤ t →
      runRetryFail maxRetries retryInterval gap n t
          ⟨k, some tl, some (tl + retryInterval), false⟩ =
        ((runRetryFail maxRetries retryInterval gap n t
          ⟨k, some tl, some (tl + retryInterval), false⟩).1, min n (maxRetries - k)) ∧
      (runRetryFail maxRetries retryInterval gap n t
          ⟨k, some tl, some (tl + retryInterval), false⟩).1.attempts =
        k + min n (maxRetries - k) ∧
      ((runRetryFail maxRetries retryInterval gap n t
          ⟨k, some tl, some (tl + retryInterval), false⟩).1.failed_permanently = true ↔
        maxRetries - k ≤ n) := by
  intro n
  induction n with
  | zero =>
    intro k tl t hk _
    refine ⟨by simp [runRetryFail], by simp [runRetryFail], ?_⟩
    simp [runRetryFail]
    omega
  | succ n ih =>
    intro k tl t hk ht
    have hdue : notYetDue t (some (tl + retryInterval)) = false := by
      simp [notYetDue]; omega
    by_cases hroom : k + 2 ≤ maxRetries
    · have hstep := handleServiceRetry_step_mid maxRetries retryInterval t
        ⟨k, some tl, some (tl + retryInterval), false⟩ rfl hdue (by simpa using hroom)
      have hrec := ih (k + 1) t (t + gap) (by omega) (by omega)
      have hunfold : runRetryFail maxRetries retryInterval gap (n + 1) t
          ⟨k, some tl, some (tl + retryInterval), false⟩ =
          ((runRetryFail maxRetries retryInterval gap n (t + gap)
              ⟨k + 1, some t, some (t + retryInterval), false⟩).1,
           1 + (runRetryFail maxRetries retryInterval gap n (t + gap)
              ⟨k + 1, some t, some (t + retryInterval), false⟩).2) := by
        simp [runRetryFail, hstep]
      rw [hunfold]
      refine ⟨?_, ?_, ?_⟩
      · have h2 := congrArg Prod.snd hrec.1
        simp at h2
        simp [h2]
        omega
      · have := hrec.2.1
        rw [this]
        omega
      · rw [hrec.2.2]
        omega
    · have hlast : maxRetries ≤ k + 1 := by omega
      have hstep := handleServiceRetry_step_last maxRetries retryInterval t
        ⟨k, some tl, some (tl + retryInterval), false⟩ rfl hdue (by simpa using hlast)
      have habs := runRetryFail_failed maxRetries retryInterval gap
        ⟨k + 1, some t, some (tl + retryInterval), true⟩ rfl n (t + gap)
      have hunfold : runRetryFail maxRetries retryInterval gap (n + 1) t
          ⟨k, some tl, some (tl + retryInterval), false⟩ =
          (⟨k + 1, some t, some (tl + retryInterval), true⟩, 1) := by
        simp [runRetryFail, hstep, habs]
      rw [hunfold]
      refine ⟨?_, ?_, ?_⟩
      · simp
        omega
      · simp
        omega
      · simp
        omega

/-- C1: for a service with `desiredRunning=true` whose start always fails,
under cycles spaced at least `retry_interval` apart (so each cycle is
eligible), after `n` cycles the attempts counter equals `min n maxRetries`
(hence it strictly increases by one on each eligible cycle until it reaches
`maxRetries`), `failed_permanently` holds exactly once `maxRetries` cycles
have run, and `start_service` has been invoked exactly `min n maxRetries`
times (so exactly `maxRetries` times over any long enough run); moreover a
permanently failed service never triggers another start attempt. -/
theorem retry_monotonicity (maxRetries retryInterval gap t0 : Nat)
    (hmr : 1 ≤ maxRetries) (hgap : retryInterval ≤ gap) :
    (∀ n,
      (runRetryFail maxRetries retryInterval gap n t0 zeroRetry).2 = min n maxRetries ∧
      (runRetryFail maxRetries retryInterval gap n t0 zeroRetry).1.attempts =
        min n maxRetries ∧
      ((runRetryFail maxRetries retryInterval gap n t0 zeroRetry).1.failed_permanently = true ↔
        maxRetries ≤ n))
  ∧ (∀ now rs, rs.failed_permanently = true →
      handleServiceRetry maxRetries retryInterval now false false (some rs) =
        (rs, false, false)) := by
  constructor
  · intro n
    cases n with
    | zero =>
      refine ⟨by simp [runRetryFail], by simp [runRetryFail, zeroRetry], ?_⟩
      simp [runRetryFail, zeroRetry]
      omega
    | succ n =>
      by_cases hone : maxRetries = 1
      · subst hone
        have hstep : handleServiceRetry 1 retryInterval t0 false false (some zeroRetry) =
            (⟨1, some t0, none, true⟩, false, true) := by
          simp [handleServiceRetry, zeroRetry, notYetDue]
        have habs := runRetryFail_failed 1 retryInterval gap
          ⟨1, some t0, none, true⟩ rfl n (t0 + gap)
        have hunfold : runRetryFail 1 retryInterval gap (n + 1) t0 zeroRetry =
            (⟨1, some t0, none, true⟩, 1) := by
          simp only [runRetryFail]
          rw [hstep]
          simp [habs]
        rw [hunfold]
        refine ⟨by simp, by simp, by simp⟩
      · have hmr2 : 2 ≤ maxRetries := by omega
        have hnot : ¬ (1 ≤ 0 + 1 ∧ maxRetries ≤ 0 + 1) := by omega
        have hstep : handleServiceRetry maxRetries retryInterval t0 false false
            (some zeroRetry) =
            (⟨1, some t0, some (t0 + retryInterval), false⟩, false, true) := by
          have hx : ¬ (maxRetries ≤ 0 + 1) := by omega
          simp [handleServiceRetry, zeroRetry, notYetDue, hx]
        have hmid := runRetryFail_mid maxRetries retryInterval gap hgap n 1 t0 (t0 + gap)
          (by omega) (by omega)
        have hunfold : runRetryFail maxRetries retryInterval gap (n + 1) t0 zeroRetry =
            ((runRetryFail maxRetries retryInterval gap n (t0 + gap)
                ⟨1, some t0, some (t0 + retryInterval), false⟩).1,
             1 + (runRetryFail maxRetries retryInterval gap n (t0 + gap)
                ⟨1, some t0, some (t0 + retryInterval), false⟩).2) := by
          simp only [runRetryFail]
          rw [hstep]
          simp
        rw [hunfold]
        refine ⟨?_, ?_, ?_⟩
        · have h2 := congrArg Prod.snd hmid.1
          simp at h2
          simp [h2]
          omega
        · rw [show ((runRetryFail maxRetries retryInterval gap n (t0 + gap)
              ⟨1, some t0, some (t0 + retryInterval), false⟩).1,
             1 + (runRetryFail maxRetries retryInterval gap n (t0 + gap)
              ⟨1, some t0, some (t0 + retryInterval), false⟩).2).1 =
              (runRetryFail maxRetries retryInterval gap n (t0 + gap)
              ⟨1, some t0, some (t0 + retryInterval), false⟩).1 from rfl, hmid.2.1]
          omega
        · rw [show ((runRetryFail maxRetries retryInterval gap n (t0 + gap)
              ⟨1, some t0, some (t0 + retryInterval), false⟩).1,
             1 + (runRetryFail maxRetries retryInterval gap n (t0 + gap)
              ⟨1, some t0, some (t0 + retryInterval), false⟩).2).1 =
              (runRetryFail maxRetries retryInterval gap n (t0 + gap)
              ⟨1, some t0, some (t0 + retryInterval), false⟩).1 from rfl, hmid.2.2]
          omega
  · intro now rs h
    exact handleServiceRetry_failed maxRetries retryInterval now rs h

/-- C1 witness: `maxRetries = 3`, `retryInterval = gap = 600`, five cycles. -/
theorem retry_monotonicity_witness :
    (runRetryFail 3 600 600 5 0 zeroRetry).2 = min 5 3 ∧
    (runRetryFail 3 600 600 5 0 zeroRetry).1.attempts = min 5 3 ∧
    ((runRetryFail 3 600 600 5 0 zeroRetry).1.failed_permanently = true ↔ 3 ≤ 5) :=
  (retry_monotonicity 3 600 600 0 (by decide) (by decide)).1 5

/-- Model of the Python values the daemon stores in dicts and passes to
`json.dump`.  `pyDatetime` models a `datetime.datetime` object (as stored
into `retry_state` at lines 380 and 386); `json.dump` cannot serialize it. -/
inductive PyVal where
  | pyNone
  | pyBool (b : Bool)
  | pyInt (n : Int)
  | pyStr (s : String)
  | pyDatetime (t : Nat)
  | pyList (xs : List PyVal)
  | pyDict (kvs : List (String × PyVal))

mutual

/-- Whether `json.dump` accepts the value: every scalar except `datetime` is
serializable; containers are serializable iff all their members are.  A
`datetime` raises `TypeError: Object of type datetime is not JSON
serializable`. -/
def jsonSerializable : PyVal → Bool
  | .pyNone => true
  | .pyBool _ => true
  | .pyInt _ => true
  | .pyStr _ => true
  | .pyDatetime _ => false
  | .pyList xs => jsonSerializableList xs
  | .pyDict kvs => jsonSerializableKVs kvs

/-- Serializability of a JSON array's elements. -/
def jsonSerializableList : List PyVal → Bool
  | [] => true
  | x :: xs => jsonSerializable x && jsonSerializableList xs

/-- Serializability of a JSON object's values. -/
def jsonSerializableKVs : List (String × PyVal) → Bool
  | [] => true
  | kv :: kvs => jsonSerializable kv.2 && jsonSerializableKVs kvs

end

/-- Observable effects of one daemon cycle.  Service-manager calls record the
service name; filesystem effects record the path.  `write` is a plain
`open(path, 'w')` + full `json.dump`; `failWrite` is an `open(path, 'w')`
whose `json.dump` raised midway (the file is truncated and left with at most
a partial prefix of the intended content); `rename` is `os.rename`;
`remove` is `os.remove`. -/
inductive Action where
  | statusCall (svc : String)
  | startCall (svc : String)
  | stopCall (svc : String)
  | write (path : String) (content : PyVal)
  | failWrite (path : String)
  | rename (src dst : String)
  | remove (path : String)

/-- Contents of a file in the model filesystem: either a fully written value
or the residue of an interrupted write. -/
inductive FileContent where
  | val (v : PyVal)
  | corrupt

/-- The model filesystem: a partial map from paths to contents. -/
abbrev Fs := String → Option FileContent

/-- Semantics of a single filesystem effect (service-manager calls leave the
filesystem unchanged). -/
def applyAct (fs : Fs) : Action → Fs
  | .write p v => fun q => if q = p then some (.val v) else fs q
  | .failWrite p => fun q => if q = p then some .corrupt else fs q
  | .rename src dst => fun q => if q = dst then fs src else if q = src then none else fs q
  | .remove p => fun q => if q = p then none else fs q
  | _ => fs

/-- Running a whole trace of effects against the model filesystem. -/
def applyActs (fs : Fs) : List Action → Fs
  | [] => fs
  | a :: rest => applyActs (applyAct fs a) rest

/-- Oracle for the outcomes of the external systemctl invocations one service
may incur within a cycle. -/
structure SvcOracle where
  statusRes : Option (Int × String)
  statusRetryRes : Option (Int × String)
  startRes : Option Int
  startVerifyRes : Option (Int × String)
  stopRes : Option Int

/-- The body of the `for service in self.services` loop of `manage_services`
(lines 391-410) for one service: query the actual status, then either run the
start/retry path, reset the retry entry of a healthy service, or stop an
unwanted running service (resetting its retry entry regardless of the stop
outcome).  Returns the new retry entry (`none` = key still absent from the
dict) and the trace of service-manager calls. -/
def manageServiceStep (maxRetries retryInterval now : Nat) (svc : String)
    (o : SvcOracle) (shouldRun : Bool) (rs0 : Option RetryState) :
    Option RetryState × List Action :=
  let isRunning := statusOf o.statusRes
  if shouldRun then
    if isRunning then
      (rs0.map (fun _ => zeroRetry), [.statusCall svc])
    else
      let r := handleServiceRetry maxRetries retryInterval now
        (statusOf o.statusRetryRes) (startServiceOk o.startRes o.startVerifyRes) rs0
      (some r.1, .statusCall svc :: (if r.2.2 then [.startCall svc] else []))
  else
    (rs0.map (fun _ => zeroRetry),
     .statusCall svc :: (if isRunning then [.stopCall svc] else []))

/-- Insertion-order-preserving update of the `retry_state` dict. -/
def setRS : List (String × RetryState) → String → RetryState → List (String × RetryState)
  | [], k, v => [(k, v)]
  | kv :: rest, k, v => if kv.1 == k then (k, v) :: rest else kv :: setRS rest k v

/-- `manage_services` (lines 391-410): the per-service step folded over the
fixed service list, threading the `retry_state` dict and concatenating the
call traces in order. -/
def manageServices (maxRetries retryInterval now : Nat) (oracles : String → SvcOracle)
    (shouldRun : Bool) :
    List String → List (String × RetryState) → List (String × RetryState) × List Action
  | [], rm => (rm, [])
  | svc :: rest, rm =>
    let r := manageServiceStep maxRetries retryInterval now svc (oracles svc)
      shouldRun (rm.lookup svc)
    let rm' := match r.1 with
      | some rs => setRS rm svc rs
      | none => rm
    let rr := manageServices maxRetries retryInterval now oracles shouldRun rest rm'
    (rr.1, r.2 ++ rr.2)

/-- One element of the Prometheus target list built at lines 296-304: a
single-target entry with job, cluster and hostname labels. -/
def targetEntry (hostname cluster job : String) (port : Nat) : PyVal :=
  .pyDict [("targets", .pyList [.pyStr (hostname ++ ":" ++ toString port)]),
           ("labels", .pyDict [("job", .pyStr job), ("cluster", .pyStr cluster),
                               ("hostname", .pyStr hostname)])]

/-- The full `target_data` list of `_create_prometheus_target` (lines
288-304): one entry per exporter in the fixed `exporters` dict, in insertion
order. -/
def targetData (hostname cluster : String) (nodePort cgroupPort gpuPort : Nat) : PyVal :=
  .pyList [targetEntry hostname cluster "node_exporter" nodePort,
           targetEntry hostname cluster "cgroup_exporter" cgroupPort,
           targetEntry hostname cluster "gpu_exporter" gpuPort]

/-- `_create_prometheus_target` (lines 285-316): write the target data to
`<target_file>.tmp`, then atomically rename the temp file over the final
path (lines 306-312). -/
def createPrometheusTarget (targetFile hostname cluster : String)
    (nodePort cgroupPort gpuPort : Nat) : List Action :=
  [.write (targetFile ++ ".tmp") (targetData hostname cluster nodePort cgroupPort gpuPort),
   .rename (targetFile ++ ".tmp") targetFile]

/-- `_remove_prometheus_target` (lines 318-325): remove the file if it
exists; absence is not an error. -/
def removePrometheusTarget (targetFile : String) (fileExists : Bool) : List Action :=
  if fileExists then [.remove targetFile] else []

/-- `manage_prometheus_targets` (lines 263-283): skip entirely (log only)
when the shared targets directory is absent; otherwise create the descriptor
when the node should be scraped and remove it when it should not. -/
def managePrometheusTargets (dirOk : Bool) (targetFile hostname cluster : String)
    (nodePort cgroupPort gpuPort : Nat) (fileExists shouldBeScraped : Bool) : List Action :=
  if dirOk then
    if shouldBeScraped then
      createPrometheusTarget targetFile hostname cluster nodePort cgroupPort gpuPort
    else
      removePrometheusTarget targetFile fileExists
  else []

/-- Conversion of a retry entry to the Python dict the daemon keeps in
`self.retry_state`: timestamps are raw `datetime` objects (lines 380, 386),
not strings. -/
def pyOfTime : Option Nat → PyVal
  | none => .pyNone
  | some t => .pyDatetime t

/-- The in-memory Python representation of one `RetryState` entry. -/
def RetryState.toPy (rs : RetryState) : PyVal :=
  .pyDict [("attempts", .pyInt rs.attempts),
           ("last_attempt", pyOfTime rs.last_attempt),
           ("next_attempt", pyOfTime rs.next_attempt),
           ("failed_permanently", .pyBool rs.failed_permanently)]

/-- The `current_state` dict built at lines 446-450:
role flag, ISO-formatted last-check string, and the whole retry-state dict. -/
def persistedStatePy (roleActive : Bool) (lastCheckIso : String)
    (rm : List (String × RetryState)) : PyVal :=
  .pyDict [("has_slurmclient_role", .pyBool roleActive),
           ("last_check", .pyStr lastCheckIso),
           ("retry_state", .pyDict (rm.map (fun kv => (kv.1, kv.2.toPy))))]

/-- `save_state` (lines 337-344): a direct `open(state_file, 'w')` followed
by `json.dump(state, f)` inside a try/except.  If the value serializes the
file receives the full content; if `json.dump` raises (e.g. on a `datetime`)
the exception is caught and logged, leaving the freshly truncated file with
at most a partial prefix.  There is no temp file and no rename. -/
def saveStateOps (statePath : String) (v : PyVal) : List Action :=
  if jsonSerializable v then [.write statePath v] else [.failWrite statePath]

/-- The recognized configuration keys (lines 63-76 of `load_config`). -/
structure Config where
  bcm_headnodes : List String
  bcm_port : Nat
  cert_path : String
  key_path : String
  check_interval : Nat
  retry_interval : Nat
  max_retries : Nat
  prometheus_targets_dir : String
  node_exporter_port : Nat
  cgroup_exporter_port : Nat
  nvidia_gpu_exporter_port : Nat
  cluster_name : String

/-- `self.state_file` as built in `__init__` (line 36). -/
def stateFilePath (hostname : String) : String :=
  "/var/lib/bcm-role-monitor/" ++ hostname ++ "_state.json"

/-- The per-hostname descriptor path (line 276). -/
def targetFilePath (dir hostname : String) : String :=
  dir ++ "/" ++ hostname ++ ".json"

/-- External observations feeding one iteration of `monitor_loop`
(lines 419-455). -/
structure CycleIn where
  connectivityOk : Bool
  roleCheck : Option Bool
  now : Nat
  nowIso : String
  oracles : String → SvcOracle
  targetsDirOk : Bool
  targetFileExists : Bool

/-- Result of one iteration of `monitor_loop`: the carried-over
`previous_role_status` and `retry_state`, plus the traces of the three
effectful phases (service reconciliation, discovery publication, state
persistence) in execution order. -/
structure CycleOut where
  prevRole : Option Bool
  retryMap : List (String × RetryState)
  svcActs : List Action
  discActs : List Action
  stateActs : List Action

/-- One iteration of `monitor_loop` (lines 419-455).  A failed connectivity
probe (line 422) or an unknown role (`None`, line 430) sleeps and `continue`s
without touching services, discovery files, retry state or the state file.
Otherwise the cycle reconciles every service, publishes or removes the
discovery descriptor, and attempts to persist the state dict. -/
def monitorCycle (cfg : Config) (hostname : String) (services : List String)
    (prevRole : Option Bool) (rm : List (String × RetryState)) (inp : CycleIn) : CycleOut :=
  if inp.connectivityOk then
    match inp.roleCheck with
    | none => ⟨prevRole, rm, [], [], []⟩
    | some active =>
      let ms := manageServices cfg.max_retries cfg.retry_interval inp.now inp.oracles
        active services rm
      let disc := managePrometheusTargets inp.targetsDirOk
        (targetFilePath cfg.prometheus_targets_dir hostname) hostname cfg.cluster_name
        cfg.node_exporter_port cfg.cgroup_exporter_port cfg.nvidia_gpu_exporter_port
        inp.targetFileExists active
      let st := saveStateOps (stateFilePath hostname)
        (persistedStatePy active inp.nowIso ms.1)
      ⟨some active, ms.1, ms.2, disc, st⟩
  else ⟨prevRole, rm, [], [], []⟩

/-- One device record of the BCM inventory response: `device.get('hostname')`
may be absent (`None`), `device.get('roles', [])` defaults to the empty
list. -/
structure Device where
  hostname : Option String
  roles : List String
deriving DecidableEq

/-- Outcome of querying one headnode in `check_slurmclient_role`
(lines 152-195): a transport error, a non-200 response, an unparseable body,
or a parsed device list. -/
inductive EndpointResult where
  | requestError
  | httpError (code : Nat)
  | parseError
  | ok (devices : List Device)

/-- The `for device in devices` scan (lines 169-176): first record whose
`hostname` equals the local hostname, compared with Python `==`
(case-sensitive). -/
def findDevice (hn : String) : List Device → Option Device
  | [] => none
  | d :: ds => if d.hostname = some hn then some d else findDevice hn ds

/-- Python `str.lower()`: lowercase every character. -/
def pyLower (s : String) : String := String.mk (s.data.map Char.toLower)

/-- Line 172: `'slurmclient' in [role.lower() for role in roles]` — exact
(whole-token) membership of the lowercased role list. -/
def hasRole (d : Device) : Bool :=
  (d.roles.map pyLower).contains "slurmclient"

/-- `check_slurmclient_role` (lines 146-198): walk the headnodes in order;
any failed, non-200 or unparseable response is skipped (`continue`), as is a
successful response that does not contain the local hostname (lines 178-180);
the first successful response containing the local hostname decides the
tri-state; exhausting all headnodes yields `None` (line 198). -/
def checkSlurmclientRole (hn : String) : List EndpointResult → Option Bool
  | [] => none
  | .ok devs :: rest =>
    match findDevice hn devs with
    | some d => some (hasRole d)
    | none => checkSlurmclientRole hn rest
  | .requestError :: rest => checkSlurmclientRole hn rest
  | .httpError _ :: rest => checkSlurmclientRole hn rest
  | .parseError :: rest => checkSlurmclientRole hn rest

/-- An endpoint result that `check_slurmclient_role` skips with `continue`:
any error, or a parsed device list without the local hostname. -/
def endpointSkipped (hn : String) : EndpointResult → Prop
  | .ok devs => findDevice hn devs = none
  | _ => True

/-- The config-dict defaults written out at lines 63-76. -/
def defaultConfigDict : List (String × PyVal) :=
  [("bcm_headnodes", .pyList []),
   ("bcm_port", .pyInt 8081),
   ("cert_path", .pyStr "/etc/bcm-role-monitor/admin.pem"),
   ("key_path", .pyStr "/etc/bcm-role-monitor/admin.key"),
   ("check_interval", .pyInt 60),
   ("retry_interval", .pyInt 600),
   ("max_retries", .pyInt 3),
   ("prometheus_targets_dir", .pyStr "/cm/shared/apps/jobstats/prometheus-targets"),
   ("node_exporter_port", .pyInt 9100),
   ("cgroup_exporter_port", .pyInt 9306),
   ("nvidia_gpu_exporter_port", .pyInt 9445),
   ("cluster_name", .pyStr "slurm")]

/-- The key-merge loop of `load_config` (lines 82-85): every default key
missing from the loaded dict is added with its default value; present keys
are untouched. -/
def mergeConfig (cfg : List (String × PyVal)) : List (String × PyVal) :=
  cfg ++ defaultConfigDict.filter (fun kv => (cfg.lookup kv.1).isNone)

/-- State of the config file when `load_config` runs. -/
inductive ConfigFileState where
  | absent
  | unparseable
  | parsed (cfg : List (String × PyVal))

/-- `load_config` (lines 61-96), including its use of `self.logger`.
`__init__` calls `load_config` (line 34) BEFORE `setup_logging` (line 46)
assigns `self.logger` (line 59), so `loggerReady` is `false` during daemon
startup.  The parsed branch (lines 78-86) performs no logging and always
succeeds, returning the merged dict.  The unparseable branch reaches
`self.logger.error` (line 88) and the absent branch reaches
`self.logger.info` (line 95) after writing the default config file
(lines 92-94): with `loggerReady = false` these attribute accesses raise
`AttributeError`, which escapes `load_config` and `__init__`.
`Except.error` carries the filesystem effects already performed before the
raise; `Except.ok` carries the returned config and the effects. -/
def loadConfig (loggerReady : Bool) (configPath : String) :
    ConfigFileState → Except (List Action) (List (String × PyVal) × List Action)
  | .absent =>
    if loggerReady then
      .ok (defaultConfigDict, [.write configPath (.pyDict defaultConfigDict)])
    else
      .error [.write configPath (.pyDict defaultConfigDict)]
  | .unparseable =>
    if loggerReady then .ok (defaultConfigDict, []) else .error []
  | .parsed cfg => .ok (mergeConfig cfg, [])

/-- Whether an action is a plain or failed direct write to path `p` — the
two ways a trace can expose a partially written or torn file at `p`.  A
trace is atomic for `p` when it contains neither. -/
def clobbers (p : String) : Action → Bool
  | .write q _ => q == p
  | .failWrite q => q == p
  | _ => false

/-- A trace updates `p` only atomically: never by writing to `p` in place,
so a reader of `p` can never observe a partial file. -/
def atomicFor (p : String) (ops : List Action) : Bool :=
  ops.all (fun a => !(clobbers p a))

/-- The documented default configuration (lines 63-76), as the typed record
the daemon works with after `load_config`. -/
def defaultConfig : Config :=
  { bcm_headnodes := [], bcm_port := 8081,
    cert_path := "/etc/bcm-role-monitor/admin.pem",
    key_path := "/etc/bcm-role-monitor/admin.key",
    check_interval := 60, retry_interval := 600, max_retries := 3,
    prometheus_targets_dir := "/cm/shared/apps/jobstats/prometheus-targets",
    node_exporter_port := 9100, cgroup_exporter_port := 9306,
    nvidia_gpu_exporter_port := 9445, cluster_name := "slurm" }

/-- C2: in any cycle whose role resolution returns `None`, the daemon issues
no service-manager call, performs no filesystem effect (so the discovery
descriptor is neither created, modified nor deleted and the state file is
untouched), and leaves the whole retry-state map and the remembered previous
role unchanged — `unknown` is frozen, never coerced to role-inactive. -/
theorem unknown_role_freeze (cfg : Config) (hostname : String) (services : List String)
    (prevRole : Option Bool) (rm : List (String × RetryState)) (inp : CycleIn)
    (hconn : inp.connectivityOk = true) (hrole : inp.roleCheck = none) :
    monitorCycle cfg hostname services prevRole rm inp = ⟨prevRole, rm, [], [], []⟩ := by
  simp [monitorCycle, hconn, hrole]

/-- Concrete oracle in which every external call would succeed. -/
def allOkOracle : SvcOracle :=
  { statusRes := some (0, "active"), statusRetryRes := some (0, "active"),
    startRes := some 0, startVerifyRes := some (0, "active"), stopRes := some 0 }

/-- A concrete cycle input whose role resolution failed. -/
def unknownRoleIn : CycleIn :=
  { connectivityOk := true, roleCheck := none, now := 700,
    nowIso := "2026-01-01T00:11:40", oracles := fun _ => allOkOracle,
    targetsDirOk := true, targetFileExists := true }

/-- C2 witness: a node with live retry backoff state and an existing
descriptor file sees a resolution failure; nothing moves. -/
theorem unknown_role_freeze_witness :
    monitorCycle defaultConfig "dgx01"
      ["cgroup_exporter", "node_exporter", "nvidia_gpu_exporter"]
      (some true) [("node_exporter", ⟨2, some 5, some 605, false⟩)] unknownRoleIn =
      ⟨some true, [("node_exporter", ⟨2, some 5, some 605, false⟩)], [], [], []⟩ :=
  unknown_role_freeze defaultConfig "dgx01"
    ["cgroup_exporter", "node_exporter", "nvidia_gpu_exporter"]
    (some true) [("node_exporter", ⟨2, some 5, some 605, false⟩)] unknownRoleIn rfl rfl

/-- C3: a permanently-failed service that is observed actually running in a
cycle with `desiredRunning=true` has its retry entry reset to the zero value,
whether the observation happens at the reconcile check (line 394 feeding
lines 400-403) or at the probe inside the permanently-failed branch
(lines 362-365); no start or stop call is made. -/
theorem recovery_reset (maxRetries retryInterval now : Nat) (svc : String)
    (o : SvcOracle) (rs : RetryState) (hfail : rs.failed_permanently = true) :
    (statusOf o.statusRes = true →
      manageServiceStep maxRetries retryInterval now svc o true (some rs) =
        (some zeroRetry, [.statusCall svc]))
  ∧ (statusOf o.statusRes = false → statusOf o.statusRetryRes = true →
      manageServiceStep maxRetries retryInterval now svc o true (some rs) =
        (some zeroRetry, [.statusCall svc])) := by
  constructor
  · intro h
    simp [manageServiceStep, h]
  · intro h h2
    simp [manageServiceStep, h, handleServiceRetry, hfail, h2]

/-- C3 witness: a service with exhausted retry budget observed active again. -/
theorem recovery_reset_witness :
    manageServiceStep 3 600 1000 "node_exporter" allOkOracle true
      (some ⟨3, some 5, some 605, true⟩) =
      (some zeroRetry, [.statusCall "node_exporter"]) :=
  (recovery_reset 3 600 1000 "node_exporter" allOkOracle
    ⟨3, some 5, some 605, true⟩ rfl).1 (by rfl)

/-- Recognizer for stop calls in a trace. -/
def isStop : Action → Bool
  | .stopCall _ => true
  | _ => false

/-- C5: when `desiredRunning=false` and the service is observed running,
exactly one stop call is issued with no gating — for every prior retry entry
and every stop outcome (`o` is universally quantified, so a failing stop
included) — and the retry entry is reset to zero regardless; moreover across
a whole cycle every such service receives its stop call (one per running
service), so a failed stop never aborts the cycle. -/
theorem stop_unconditional :
    (∀ (maxRetries retryInterval now : Nat) (svc : String) (o : SvcOracle)
       (rs0 : Option RetryState), statusOf o.statusRes = true →
       manageServiceStep maxRetries retryInterval now svc o false rs0 =
         (rs0.map (fun _ => zeroRetry), [.statusCall svc, .stopCall svc]))
  ∧ (∀ (maxRetries retryInterval now : Nat) (oracles : String → SvcOracle)
       (services : List String), (∀ s, statusOf (oracles s).statusRes = true) →
       ∀ rm : List (String × RetryState),
       ((manageServices maxRetries retryInterval now oracles false services rm).2.countP
          isStop) = services.length) := by
  constructor
  · intro maxRetries retryInterval now svc o rs0 h
    simp [manageServiceStep, h]
  · intro maxRetries retryInterval now oracles services hall
    induction services with
    | nil => intro rm; simp [manageServices]
    | cons s rest ih =>
      intro rm
      have hstep : manageServiceStep maxRetries retryInterval now s (oracles s) false
          (rm.lookup s) =
          ((rm.lookup s).map (fun _ => zeroRetry), [.statusCall s, .stopCall s]) := by
        simp [manageServiceStep, hall s]
      simp [manageServices, hstep, List.countP_cons, isStop, ih]

/-- Oracle for a running service whose stop command fails. -/
def stopFailOracle : SvcOracle :=
  { statusRes := some (0, "active"), statusRetryRes := some (0, "active"),
    startRes := some 0, startVerifyRes := some (0, "active"), stopRes := some 1 }

/-- C5 witness: a running service whose previous state was permanently failed
and whose stop command fails this cycle still gets exactly one stop call, and
its retry entry still resets. -/
theorem stop_unconditional_witness :
    manageServiceStep 3 600 0 "node_exporter" stopFailOracle false
      (some ⟨2, some 1, some 601, true⟩) =
      (some zeroRetry, [.statusCall "node_exporter", .stopCall "node_exporter"]) :=
  stop_unconditional.1 3 600 0 "node_exporter" stopFailOracle
    (some ⟨2, some 1, some 601, true⟩) (by rfl)

/-- C4: role resolution returns `None` exactly when every endpoint is
skipped (error, non-200, unparseable, or no record with the local hostname);
a skipped endpoint never influences the result; the first successful
response whose device list contains the local hostname decides the result as
the case-insensitive exact-token membership of "slurmclient" in the chosen
record's role list; the chosen record is the first one whose hostname equals
the local hostname under case-sensitive string equality; and role membership
is whole-token equality of lowercased role names, not substring matching. -/
theorem role_resolution (hn : String) :
    (∀ results, checkSlurmclientRole hn results = none ↔
      ∀ r ∈ results, endpointSkipped hn r)
  ∧ (∀ r rest, endpointSkipped hn r →
      checkSlurmclientRole hn (r :: rest) = checkSlurmclientRole hn rest)
  ∧ (∀ devs rest d, findDevice hn devs = some d →
      checkSlurmclientRole hn (.ok devs :: rest) = some (hasRole d))
  ∧ (∀ devs d, findDevice hn devs = some d → d.hostname = some hn)
  ∧ (∀ d, hasRole d = true ↔ ∃ r ∈ d.roles, pyLower r = "slurmclient") := by
  refine ⟨?_, ?_, ?_, ?_, ?_⟩
  · intro results
    induction results with
    | nil => simp [checkSlurmclientRole]
    | cons r rest ih =>
      cases r with
      | requestError => simp [checkSlurmclientRole, ih, endpointSkipped]
      | httpError code => simp [checkSlurmclientRole, ih, endpointSkipped]
      | parseError => simp [checkSlurmclientRole, ih, endpointSkipped]
      | ok devs =>
        cases hfd : findDevice hn devs with
        | none => simp [checkSlurmclientRole, hfd, ih, endpointSkipped]
        | some d => simp [checkSlurmclientRole, hfd, endpointSkipped]
  · intro r rest hskip
    cases r with
    | requestError => simp [checkSlurmclientRole]
    | httpError code => simp [checkSlurmclientRole]
    | parseError => simp [checkSlurmclientRole]
    | ok devs =>
      have hfd : findDevice hn devs = none := hskip
      simp [checkSlurmclientRole, hfd]
  · intro devs rest d hfd
    simp [checkSlurmclientRole, hfd]
  · intro devs
    induction devs with
    | nil => intro d h; simp [findDevice] at h
    | cons d0 ds ih =>
      intro d h
      by_cases hd : d0.hostname = some hn
      · simp [findDevice, hd] at h
        rw [← h]
        exact hd
      · simp [findDevice, hd] at h
        exact ih d h
  · intro d
    simp [hasRole, List.contains_iff_exists_mem_beq, List.mem_map]

/-- A concrete inventory: a non-matching record first, then the local node
with a case-varying role name. -/
def inventoryExample : List Device :=
  [{ hostname := some "other", roles := ["login"] },
   { hostname := some "dgx01", roles := ["SlurmClient", "compute"] }]

/-- C4 witness: one failed endpoint is skipped, the next parses and contains
the node; the case-insensitive membership test reports the role. -/
theorem role_resolution_witness :
    checkSlurmclientRole "dgx01" [.httpError 500, .ok inventoryExample] = some true := by
  have h := role_resolution "dgx01"
  rw [h.2.1 (.httpError 500) [.ok inventoryExample] trivial]
  rw [h.2.2.1 inventoryExample []
    { hostname := some "dgx01", roles := ["SlurmClient", "compute"] } (by decide)]
  decide

/-- Appending ".tmp" always changes a path. -/
lemma tmp_path_ne (s : String) : s ++ ".tmp" ≠ s := by
  intro h
  have h2 := congrArg String.length h
  rw [String.length_append] at h2
  have h4 : (".tmp" : String).length = 4 := rfl
  omega

/-- C6 counterexample: at a concrete hostname and a concrete, perfectly
serializable persisted state, the trace `save_state` produces for the state
file is a direct in-place write — not a temp-file-plus-rename — so the state
file is not written atomically and the claim that both durable artifacts are
is false. -/
theorem atomic_write_cex :
    atomicFor (stateFilePath "dgx01")
      (saveStateOps (stateFilePath "dgx01")
        (persistedStatePy true "2026-01-01T00:00:00" [("node_exporter", zeroRetry)])) =
      false := by
  decide

/-- C6 amended: the discovery descriptor is written atomically — its trace
touches the final path only through a rename from the temp file, for every
hostname and configuration — while the state file is written by a direct
in-place `open`/`json.dump` for every state value, hence never atomically. -/
theorem atomic_write_amended (targetFile hostname cluster : String)
    (nodePort cgroupPort gpuPort : Nat) (statePath : String) (v : PyVal) :
    atomicFor targetFile
      (createPrometheusTarget targetFile hostname cluster nodePort cgroupPort gpuPort) = true
  ∧ atomicFor statePath (saveStateOps statePath v) = false := by
  constructor
  · have hne : (targetFile ++ ".tmp" == targetFile) = false :=
      beq_eq_false_iff_ne.mpr (tmp_path_ne targetFile)
    simp [atomicFor, createPrometheusTarget, clobbers, hne]
  · by_cases hs : jsonSerializable v
    · simp [atomicFor, saveStateOps, hs, clobbers]
    · simp [atomicFor, saveStateOps, hs, clobbers]

/-- Oracle for a stopped service whose start command fails. -/
def startFailOracle : SvcOracle :=
  { statusRes := some (3, "inactive"), statusRetryRes := some (3, "inactive"),
    startRes := some 1, startVerifyRes := some (3, "inactive"), stopRes := some 0 }

/-- Cycle input: role active, one service down, its start failing. -/
def startFailIn : CycleIn :=
  { connectivityOk := true, roleCheck := some true, now := 1000,
    nowIso := "2026-01-01T00:16:40", oracles := fun _ => startFailOracle,
    targetsDirOk := true, targetFileExists := false }

/-- C7: the claim fails on the code.  After the very first failed start
attempt the retry entry holds raw `datetime` objects (lines 380, 386); the
`current_state` dict built at lines 446-450 embeds them, `json.dump` cannot
serialize a `datetime`, so `save_state`'s write raises and is swallowed by
its except clause (lines 343-344): the cycle ends with a failed, truncating
write instead of a persisted state, and the backoff timers are exactly what
a restarted daemon can never recover. -/
theorem state_persist_failure :
    (monitorCycle defaultConfig "dgx01" ["cgroup_exporter"] none [] startFailIn).retryMap =
      [("cgroup_exporter", ⟨1, some 1000, some 1600, false⟩)]
  ∧ jsonSerializable (persistedStatePy true "2026-01-01T00:16:40"
      [("cgroup_exporter", ⟨1, some 1000, some 1600, false⟩)]) = false
  ∧ (monitorCycle defaultConfig "dgx01" ["cgroup_exporter"] none [] startFailIn).stateActs =
      [.failWrite (stateFilePath "dgx01")] := by
  refine ⟨rfl, rfl, rfl⟩

/-- Lookup hits in the left part of an appended association list. -/
lemma lookup_append_left {β : Type} (l1 l2 : List (String × β)) (k : String) (v : β)
    (h : l1.lookup k = some v) : (l1 ++ l2).lookup k = some v := by
  induction l1 with
  | nil => simp [List.lookup] at h
  | cons kv rest ih =>
    cases hk : (k == kv.1) with
    | true =>
      simp [List.lookup, hk] at h ⊢
      exact h
    | false =>
      simp [List.lookup, hk] at h ⊢
      exact ih h

/-- Lookup falls through to the right part when the left part misses. -/
lemma lookup_append_right {β : Type} (l1 l2 : List (String × β)) (k : String)
    (h : l1.lookup k = none) : (l1 ++ l2).lookup k = l2.lookup k := by
  induction l1 with
  | nil => simp
  | cons kv rest ih =>
    cases kv with
    | mk k1 v1 =>
      cases hk : (k == k1) with
      | true =>
        simp only [List.lookup, hk] at h
        exact absurd h (by simp)
      | false =>
        rw [List.cons_append]
        simp only [List.lookup, hk] at h ⊢
        exact ih h

/-- Filtering with a predicate that holds on every pair keyed `k` does not
change the lookup of `k`. -/
lemma lookup_filter_of_key {β : Type} (l : List (String × β)) (p : String × β → Bool)
    (k : String) (hp : ∀ v, p (k, v) = true) :
    (l.filter p).lookup k = l.lookup k := by
  induction l with
  | nil => simp
  | cons kv rest ih =>
    cases hk : (k == kv.1) with
    | true =>
      have hkeq : k = kv.1 := eq_of_beq hk
      have hkv : kv = (k, kv.2) := by
        cases kv
        simp at hkeq
        simp [hkeq]
      rw [hkv, List.filter_cons]
      simp [hp kv.2, List.lookup]
    | false =>
      rw [List.filter_cons]
      cases hpk : p kv with
      | true =>
        simp [List.lookup, hk, ih]
      | false =>
        simp [List.lookup, hk, ih]

/-- General merge semantics of `load_config`'s key loop (lines 82-85):
present keys keep their values; missing recognized keys fall back to the
documented defaults. -/
lemma mergeConfig_lookup (cfg : List (String × PyVal)) (k : String) :
    (∀ v, cfg.lookup k = some v → (mergeConfig cfg).lookup k = some v)
  ∧ (cfg.lookup k = none → (mergeConfig cfg).lookup k = defaultConfigDict.lookup k) := by
  constructor
  · intro v h
    exact lookup_append_left cfg _ k v h
  · intro h
    rw [mergeConfig, lookup_append_right cfg _ k h]
    exact lookup_filter_of_key defaultConfigDict _ k (fun v => by simp [h])

/-- C8: the claim fails on the code.  With the config file absent at startup
the default config file IS written to disk (lines 92-94), but the daemon
does not proceed: `load_config` runs from `__init__` (line 34) before
`setup_logging` (line 46) has assigned `self.logger` (line 59), so the
`self.logger.info` at line 95 raises `AttributeError` and startup crashes
after the write (`Except.error` here); the unparseable branch crashes the
same way at line 88.  Only the parsed branch succeeds, and there the
documented merge behavior does hold: a present key keeps its value and a
missing recognized key falls back to its default. -/
theorem config_absent_crash :
    (loadConfig false "/etc/bcm-role-monitor/config.json" .absent =
      .error [.write "/etc/bcm-role-monitor/config.json" (.pyDict defaultConfigDict)])
  ∧ (loadConfig false "/etc/bcm-role-monitor/config.json" .unparseable = .error [])
  ∧ (loadConfig false "/etc/bcm-role-monitor/config.json"
        (.parsed [("max_retries", PyVal.pyInt 5)]) =
      .ok (mergeConfig [("max_retries", PyVal.pyInt 5)], []))
  ∧ ((mergeConfig [("max_retries", PyVal.pyInt 5)]).lookup "max_retries" =
      some (.pyInt 5))
  ∧ ((mergeConfig [("max_retries", PyVal.pyInt 5)]).lookup "bcm_port" =
      some (.pyInt 8081)) := by
  refine ⟨rfl, rfl, rfl, rfl, rfl⟩

/-- C9: the descriptor content a publish leaves at the target path is the
fixed function `targetData` of hostname, cluster name and exporter ports
alone; publishing twice in a row yields a filesystem identical to publishing
once (hence byte-identical file contents, serialization being a function of
the value); and within a full cycle the discovery trace is independent of
the reconciler's retry-state map and of the remembered previous role. -/
theorem discovery_idempotent (fs : Fs) (targetFile hostname cluster : String)
    (nodePort cgroupPort gpuPort : Nat) :
    (applyActs fs
        (createPrometheusTarget targetFile hostname cluster nodePort cgroupPort gpuPort)
        targetFile =
      some (.val (targetData hostname cluster nodePort cgroupPort gpuPort)))
  ∧ (applyActs
        (applyActs fs
          (createPrometheusTarget targetFile hostname cluster nodePort cgroupPort gpuPort))
        (createPrometheusTarget targetFile hostname cluster nodePort cgroupPort gpuPort) =
      applyActs fs
        (createPrometheusTarget targetFile hostname cluster nodePort cgroupPort gpuPort))
  ∧ (∀ (cfg : Config) (hn : String) (services : List String)
       (prev prev' : Option Bool) (rm rm' : List (String × RetryState)) (inp : CycleIn),
       (monitorCycle cfg hn services prev rm inp).discActs =
       (monitorCycle cfg hn services prev' rm' inp).discActs) := by
  refine ⟨?_, ?_, ?_⟩
  · simp [createPrometheusTarget, applyActs, applyAct]
  · funext q
    simp only [createPrometheusTarget, applyActs, applyAct]
    by_cases h2 : q = targetFile <;> by_cases h1 : q = targetFile ++ ".tmp" <;>
      simp [h1, h2]
  · intro cfg hn services prev prev' rm rm' inp
    by_cases hc : inp.connectivityOk
    · cases hr : inp.roleCheck with
      | none => simp [monitorCycle, hc, hr]
      | some active => simp [monitorCycle, hc, hr]
    · simp [monitorCycle, hc]

/-- C10: `get_service_status` is total over all subprocess outcomes — it is
`true` exactly on a cleanly exited, zero-return-code invocation whose
stripped stdout is "active", and `false` on an exception, a non-zero exit,
or any other reported state; a false result is fed to `manage_services`
exactly as an observed-stopped service would be (the step is identical to
the exception case), and with a failing start it triggers a start attempt
that bumps the attempts counter to 1. -/
theorem status_query_total (res : Option (Int × String)) :
    (statusOf res = true ↔ ∃ out, res = some (0, out) ∧ pyStrip out = "active")
  ∧ (∀ (maxRetries retryInterval now : Nat) (svc : String) (o : SvcOracle)
       (rs0 : Option RetryState), statusOf res = false →
       manageServiceStep maxRetries retryInterval now svc
           { o with statusRes := res } true rs0 =
         manageServiceStep maxRetries retryInterval now svc
           { o with statusRes := none } true rs0)
  ∧ (∀ (maxRetries retryInterval now : Nat) (svc : String) (o : SvcOracle),
       statusOf res = false →
       startServiceOk o.startRes o.startVerifyRes = false →
       ∃ rs, (manageServiceStep maxRetries retryInterval now svc
           { o with statusRes := res } true (some zeroRetry)).1 = some rs ∧
         rs.attempts = 1 ∧
         Action.startCall svc ∈ (manageServiceStep maxRetries retryInterval now svc
           { o with statusRes := res } true (some zeroRetry)).2) := by
  refine ⟨?_, ?_, ?_⟩
  · cases res with
    | none => simp [statusOf]
    | some p =>
      cases p with
      | mk rc out =>
        simp [statusOf]
        constructor
        · rintro ⟨h0, hs⟩
          exact ⟨out, ⟨h0, rfl⟩, hs⟩
        · rintro ⟨o1, ⟨h0, ho⟩, hs⟩
          subst ho
          exact ⟨h0, hs⟩
  · intro maxRetries retryInterval now svc o rs0 h
    have hnone : statusOf (none : Option (Int × String)) = false := rfl
    simp [manageServiceStep, h, hnone]
  · intro maxRetries retryInterval now svc o h hstart
    by_cases hm : maxRetries ≤ 0 + 1
    · refine ⟨⟨1, some now, none, true⟩, ?_, rfl, ?_⟩
      · simp [manageServiceStep, h, handleServiceRetry, zeroRetry, notYetDue, hstart, hm]
      · simp [manageServiceStep, h, handleServiceRetry, zeroRetry, notYetDue, hstart, hm]
    · refine ⟨⟨1, some now, some (now + retryInterval), false⟩, ?_, rfl, ?_⟩
      · simp [manageServiceStep, h, handleServiceRetry, zeroRetry, notYetDue, hstart, hm]
      · simp [manageServiceStep, h, handleServiceRetry, zeroRetry, notYetDue, hstart, hm]

/-- C10 witness: an invocation exiting 1 with stdout "failed" reads as not
running; with a start that fails, the retry counter moves to 1 and a start
call was issued. -/
theorem status_query_total_witness :
    statusOf (some (1, "failed")) = false
  ∧ ∃ rs, (manageServiceStep 3 600 0 "node_exporter"
        { startFailOracle with statusRes := some (1, "failed") } true
        (some zeroRetry)).1 = some rs ∧
      rs.attempts = 1 ∧
      Action.startCall "node_exporter" ∈ (manageServiceStep 3 600 0 "node_exporter"
        { startFailOracle with statusRes := some (1, "failed") } true
        (some zeroRetry)).2 :=
  ⟨rfl, (status_query_total (some (1, "failed"))).2.2 3 600 0 "node_exporter"
    startFailOracle rfl rfl⟩

end BCM
